import Mathlib

/-!
Shallow embedding of `systemd_unit_monitor.py` (watch-user-systemd-units):
the unit filter (`_should_monitor_unit` over `fnmatch`), the stats
collector (`get_unit_stats`), the Telegraf line-protocol emitter
(`send_to_telegraf`), and the reconciler operations
(`get_all_units`, `on_unit_new`, `on_unit_removed`,
`collect_and_send_unit_stats`, `poll_units`).
Python floats (wall-clock timestamps) are modelled as rationals; Python
ints as `Int`; fallible D-Bus property reads as `Option`.
-/

namespace SystemdMonitor

/-- `UnitStats` dataclass: one snapshot of a unit's observable state. -/
structure UnitStats where
  name : String
  active_state : String
  sub_state : String
  load_state : String
  unit_file_state : String
  main_pid : Int
  restart_count : Int
  memory_current : Int
  cpu_usage_nsec : Int
  timestamp : ℚ
deriving DecidableEq, Repr

/-! ## Glob matching (`fnmatch.fnmatch`, POSIX: case-sensitive)

The pattern is tokenized (`*`, `?`, `[...]` classes with optional `!`
negation and `-` ranges, a `[` without closing `]` is literal), then
matched structurally against the name. -/

inductive GlobTok where
  | star : GlobTok
  | anyChar : GlobTok
  | charClass (negated : Bool) (items : List (Char × Char)) : GlobTok
  | lit (c : Char) : GlobTok
deriving DecidableEq, Repr

/-- Scan for the closing `]` of a bracket class, returning the content
before it and the remainder after it. -/
def scanClose : List Char → Option (List Char × List Char)
  | [] => none
  | ']' :: rest => some ([], rest)
  | c :: rest =>
    match scanClose rest with
    | some (a, b) => some (c :: a, b)
    | none => none

/-- Split the characters following `[` into (negated?, class content,
remainder after the closing `]`); `none` when no closing `]` exists.
A `]` directly after `[` or `[!` is class content, not the terminator. -/
def splitClass (s : List Char) : Option (Bool × List Char × List Char) :=
  let p : Bool × List Char :=
    match s with
    | '!' :: t => (true, t)
    | _ => (false, s)
  match p.2 with
  | ']' :: t =>
    match scanClose t with
    | some (stuff, rest) => some (p.1, ']' :: stuff, rest)
    | none => none
  | _ =>
    match scanClose p.2 with
    | some (stuff, rest) => some (p.1, stuff, rest)
    | none => none

/-- Parse bracket-class content into ranges: `a-b` is a range, a lone
character `c` is the range `c-c`, a trailing `-` is literal. -/
def parseClassItems : List Char → List (Char × Char)
  | a :: '-' :: b :: rest => (a, b) :: parseClassItems rest
  | a :: rest => (a, a) :: parseClassItems rest
  | [] => []

/-- Tokenize a glob pattern; `fuel` bounds recursion (the wrapper passes
`length + 1`, always sufficient since every step consumes a character). -/
def parsePatF : Nat → List Char → List GlobTok
  | 0, _ => []
  | _, [] => []
  | fuel + 1, '*' :: rest => GlobTok.star :: parsePatF fuel rest
  | fuel + 1, '?' :: rest => GlobTok.anyChar :: parsePatF fuel rest
  | fuel + 1, '[' :: rest =>
    match splitClass rest with
    | some (neg, stuff, rest') =>
      GlobTok.charClass neg (parseClassItems stuff) :: parsePatF fuel rest'
    | none => GlobTok.lit '[' :: parsePatF fuel rest
  | fuel + 1, c :: rest => GlobTok.lit c :: parsePatF fuel rest

/-- Membership of a character in a parsed bracket class. -/
def inClass (c : Char) (items : List (Char × Char)) : Bool :=
  items.any fun r => decide (r.1 ≤ c) && decide (c ≤ r.2)

/-- Match a token list against a name; `*` tries every suffix of the
remaining name (`fnmatch` translates it to `.*` with DOTALL). -/
def globMatchT : List GlobTok → List Char → Bool
  | [], name => name.isEmpty
  | GlobTok.star :: ts, name => name.tails.any fun suffix => globMatchT ts suffix
  | GlobTok.anyChar :: _, [] => false
  | GlobTok.anyChar :: ts, _ :: ns => globMatchT ts ns
  | GlobTok.charClass _ _ :: _, [] => false
  | GlobTok.charClass neg items :: ts, c :: ns =>
    (neg != inClass c items) && globMatchT ts ns
  | GlobTok.lit _ :: _, [] => false
  | GlobTok.lit p :: ts, c :: ns => (p == c) && globMatchT ts ns

/-- `fnmatch.fnmatch(name, pat)` on a POSIX system (case-sensitive). -/
def fnmatch (name pat : String) : Bool :=
  globMatchT (parsePatF (pat.data.length + 1) pat.data) name.data

/-- `_should_monitor_unit`: include check first (non-empty include list
must have a match), then exclude check (non-empty exclude list must have
no match). -/
def shouldMonitorUnit (includePatterns excludePatterns : List String)
    (unit_name : String) : Bool :=
  if !includePatterns.isEmpty
      && !(includePatterns.any fun pattern => fnmatch unit_name pattern) then
    false
  else
    !(!excludePatterns.isEmpty
      && (excludePatterns.any fun pattern => fnmatch unit_name pattern))

/-! ## Stats collector (`get_unit_stats`) -/

/-- The D-Bus properties of one unit object; `none` means the
corresponding `Get` call raises. -/
structure UnitProps where
  activeState : Option String
  subState : Option String
  loadState : Option String
  mainPID : Option Int
  nRestarts : Option Int
  memoryCurrent : Option Int
  cpuUsageNSec : Option Int
  unitFileState : Option String
deriving DecidableEq, Repr

/-- The bus connection: `getUnit` models `manager.GetUnit` plus object
resolution (`none` = the lookup raises); `now` models `time.time()`. -/
structure Bus where
  getUnit : String → Option UnitProps
  now : ℚ

/-- `b.endswith(suffix)` via character lists. -/
def strEndsWith (s suffix : String) : Bool :=
  suffix.data.isSuffixOf s.data

/-- The inner `try` of `get_unit_stats`, assignment by assignment: a
raise in the service branch skips the remaining fetches (their defaults
stand) but keeps values already assigned; each of the three
`contextlib.suppress` blocks degrades only its own value.
Returns `(main_pid, restart_count, memory_current, cpu_usage_nsec,
unit_file_state)`. -/
def extendedProps (props : UnitProps) (isService : Bool) :
    Int × Int × Int × Int × String :=
  let resources : Int → Int → Int × Int × Int × Int × String :=
    fun main_pid restart_count =>
      (main_pid, restart_count,
       props.memoryCurrent.getD 0,
       props.cpuUsageNSec.getD 0,
       props.unitFileState.getD "unknown")
  if isService then
    match props.mainPID with
    | none => (0, 0, 0, 0, "unknown")
    | some mp =>
      match props.nRestarts with
      | none => (mp, 0, 0, 0, "unknown")
      | some nr => resources mp nr
  else
    resources 0 0

/-- `get_unit_stats`: resolve the unit, fetch the three mandatory base
properties (any failure yields `none`), then the extended properties,
and stamp with the current time. -/
def getUnitStats (bus : Bus) (unit_name : String) : Option UnitStats :=
  match bus.getUnit unit_name with
  | none => none
  | some props =>
    match props.activeState, props.subState, props.loadState with
    | some active_state, some sub_state, some load_state =>
      let e := extendedProps props (strEndsWith unit_name ".service")
      some { name := unit_name
             active_state := active_state
             sub_state := sub_state
             load_state := load_state
             unit_file_state := e.2.2.2.2
             main_pid := e.1
             restart_count := e.2.1
             memory_current := e.2.2.1
             cpu_usage_nsec := e.2.2.2.1
             timestamp := bus.now }
    | _, _, _ => none

/-! ## Metric emitter (`send_to_telegraf`) -/

/-- `",".join` / `" ".join`. -/
def joinSep (sep : String) : List String → String
  | [] => ""
  | [x] => x
  | x :: y :: rest => x ++ sep ++ joinSep sep (y :: rest)

/-- The tag list, in source order. -/
def buildTags (username : String) (uid : Int) (stats : UnitStats) :
    List String :=
  ["unit=\"" ++ stats.name ++ "\"",
   "active_state=\"" ++ stats.active_state ++ "\"",
   "sub_state=\"" ++ stats.sub_state ++ "\"",
   "load_state=\"" ++ stats.load_state ++ "\"",
   "unit_file_state=\"" ++ stats.unit_file_state ++ "\"",
   "username=\"" ++ username ++ "\"",
   "uid=\"" ++ toString uid ++ "\""]

/-- The field list, in source order, each value suffixed `i`. -/
def buildFields (stats : UnitStats) : List String :=
  ["main_pid=" ++ toString stats.main_pid ++ "i",
   "restart_count=" ++ toString stats.restart_count ++ "i",
   "memory_current=" ++ toString stats.memory_current ++ "i",
   "cpu_usage_nsec=" ++ toString stats.cpu_usage_nsec ++ "i"]

/-- `int(stats.timestamp * 1_000_000_000)`: Python `int()` truncates
toward zero; the value `t * 10^9` is the (not necessarily reduced)
fraction `t.num * 10^9 / t.den`, and `Int.tdiv` truncates toward zero
with the same result on the unreduced representation. -/
def timestampNs (t : ℚ) : Int :=
  Int.tdiv (t.num * 1000000000) (t.den : Int)

/-- The full line-protocol message, newline-terminated. -/
def telegrafLine (measurement username : String) (uid : Int)
    (stats : UnitStats) : String :=
  measurement ++ "," ++ joinSep "," (buildTags username uid stats)
    ++ " " ++ joinSep "," (buildFields stats)
    ++ " " ++ toString (timestampNs stats.timestamp) ++ "\n"

/-- Observable socket-level events of one `send_to_telegraf` call. -/
inductive SockEv where
  | connectAttempt (path : String) : SockEv
  | sendAttempt (line : String) : SockEv
  | debugLog : SockEv
  | warnLog : SockEv
  | closeSock : SockEv
deriving DecidableEq, Repr

/-- Whether the connect / the send call succeeds in this environment. -/
structure SocketBehavior where
  connectOk : Bool
  sendOk : Bool
deriving DecidableEq, Repr

/-- `send_to_telegraf`: build the line, open a socket, `try` connect and
send (a raise is caught and logged as one warning), `finally` close.
The first component is the call's outcome as seen by the caller. -/
def sendToTelegraf (b : SocketBehavior) (path measurement username : String)
    (uid : Int) (stats : UnitStats) : Except String Unit × List SockEv :=
  let line := telegrafLine measurement username uid stats
  let inner : Except String Unit × List SockEv :=
    if b.connectOk then
      if b.sendOk then
        (Except.ok (),
         [SockEv.connectAttempt path, SockEv.sendAttempt line, SockEv.debugLog])
      else
        (Except.error "send failed",
         [SockEv.connectAttempt path, SockEv.sendAttempt line])
    else
      (Except.error "connect failed", [SockEv.connectAttempt path])
  let handled : Except String Unit × List SockEv :=
    match inner with
    | (Except.error _, evs) => (Except.ok (), evs ++ [SockEv.warnLog])
    | (Except.ok _, evs) => (Except.ok (), evs)
  (handled.1, handled.2 ++ [SockEv.closeSock])

/-! ## Reconciler state and operations -/

/-- `self.units` (dict, insertion-ordered association list) and
`self.filtered_units` (set, as a duplicate-free list). -/
structure MonState where
  units : List (String × UnitStats)
  filtered_units : List String
deriving DecidableEq, Repr

/-- Dict assignment `m[k] = v`: overwrite in place or append. -/
def insertUnit (m : List (String × UnitStats)) (k : String) (v : UnitStats) :
    List (String × UnitStats) :=
  match m with
  | [] => [(k, v)]
  | (k', v') :: rest =>
    if k' = k then (k, v) :: rest else (k', v') :: insertUnit rest k v

/-- Dict read `m.get(k)`. -/
def lookupUnit (m : List (String × UnitStats)) (k : String) :
    Option UnitStats :=
  match m with
  | [] => none
  | (k', v') :: rest => if k' = k then some v' else lookupUnit rest k

/-- Dict delete `m.pop(k, None)`. -/
def removeUnit (m : List (String × UnitStats)) (k : String) :
    List (String × UnitStats) :=
  m.filter fun p => p.1 ≠ k

/-- Set insert `s.add(u)`. -/
def addScope (s : List String) (u : String) : List String :=
  if u ∈ s then s else s ++ [u]

/-- Observable events of the reconciler operations. -/
inductive LogEv where
  | infoLog (msg : String) : LogEv
  | storeUpdate (name : String) : LogEv
  | emitMetric (stats : UnitStats) : LogEv
deriving DecidableEq, Repr

def LogEv.isEmit : LogEv → Bool
  | LogEv.emitMetric _ => true
  | _ => false

def LogEv.isInfo : LogEv → Bool
  | LogEv.infoLog _ => true
  | _ => false

/-- The transition log line `f"Unit {u} state changed: {old} -> {new}"`. -/
def stateChangeMsg (unit_name old new : String) : String :=
  "Unit " ++ unit_name ++ " state changed: " ++ old ++ " -> " ++ new

/-- `collect_and_send_unit_stats`: on a successful collection, read the
old entry, overwrite the store, log a transition if `active_state`
changed, then emit; on `None`, do nothing. -/
def collectAndSendUnitStats (bus : Bus) (st : MonState) (unit_name : String) :
    MonState × List LogEv :=
  match getUnitStats bus unit_name with
  | none => (st, [])
  | some stats =>
    let old_stats := lookupUnit st.units unit_name
    let st' : MonState := { st with units := insertUnit st.units unit_name stats }
    let changeEvs : List LogEv :=
      match old_stats with
      | some o =>
        if o.active_state ≠ stats.active_state then
          [LogEv.infoLog (stateChangeMsg unit_name o.active_state stats.active_state)]
        else []
      | none => []
    (st', LogEv.storeUpdate unit_name :: changeEvs ++ [LogEv.emitMetric stats])

/-- `on_unit_new`: admit through the filter, add to scope, then
collect+store+emit. -/
def onUnitNew (bus : Bus) (includePatterns excludePatterns : List String)
    (st : MonState) (unit_name : String) : MonState × List LogEv :=
  if shouldMonitorUnit includePatterns excludePatterns unit_name then
    let st1 : MonState :=
      { st with filtered_units := addScope st.filtered_units unit_name }
    let r := collectAndSendUnitStats bus st1 unit_name
    (r.1, LogEv.infoLog ("New unit detected: " ++ unit_name) :: r.2)
  else (st, [])

/-- `on_unit_removed`: for a tracked unit, drop it from scope and from
the store (no emission). -/
def onUnitRemoved (st : MonState) (unit_name : String) : MonState × List LogEv :=
  if unit_name ∈ st.filtered_units then
    ({ units := removeUnit st.units unit_name
       filtered_units := st.filtered_units.filter fun u => u ≠ unit_name },
     [LogEv.infoLog ("Unit removed: " ++ unit_name)])
  else (st, [])

/-- The loop body of `get_all_units`: keep names passing the filter,
adding each to `filtered_units`. -/
def getAllUnitsAux (includePatterns excludePatterns : List String) :
    List String → MonState → MonState × List String
  | [], st => (st, [])
  | n :: rest, st =>
    if shouldMonitorUnit includePatterns excludePatterns n then
      let st' : MonState :=
        { st with filtered_units := addScope st.filtered_units n }
      let r := getAllUnitsAux includePatterns excludePatterns rest st'
      (r.1, n :: r.2)
    else getAllUnitsAux includePatterns excludePatterns rest st

/-- `get_all_units`: `ListUnits` failure returns `[]` and leaves the
state untouched; otherwise filter and record every admitted name. -/
def getAllUnits (listUnitsResult : Option (List String))
    (includePatterns excludePatterns : List String) (st : MonState) :
    MonState × List String :=
  match listUnitsResult with
  | none => (st, [])
  | some names => getAllUnitsAux includePatterns excludePatterns names st

/-- The loop body of `poll_units` over a snapshot of the scope set. -/
def pollUnitsAux (bus : Bus) : List String → MonState → MonState × List LogEv
  | [], st => (st, [])
  | u :: rest, st =>
    let r := collectAndSendUnitStats bus st u
    let r' := pollUnitsAux bus rest r.1
    (r'.1, r.2 ++ r'.2)

/-- `poll_units`: collect+store+emit for every unit in
`list(self.filtered_units)`. -/
def pollUnits (bus : Bus) (st : MonState) : MonState × List LogEv :=
  pollUnitsAux bus st.filtered_units st

/-! ## Auxiliary observables and concrete inputs -/

def SockEv.isClose : SockEv → Bool
  | SockEv.closeSock => true
  | _ => false

def SockEv.isWarn : SockEv → Bool
  | SockEv.warnLog => true
  | _ => false

def SockEv.isSend : SockEv → Bool
  | SockEv.sendAttempt _ => true
  | _ => false

def LogEv.isStoreUpdate : LogEv → Bool
  | LogEv.storeUpdate _ => true
  | _ => false

/-- Some event satisfying `p` occurs strictly before some later event
satisfying `q`. -/
def occursBefore (p q : LogEv → Bool) : List LogEv → Bool
  | [] => false
  | e :: rest => (p e && rest.any q) || occursBefore p q rest

/-- A tag value that embeds verbatim into the line protocol: no
double-quote, no comma. -/
def cleanTagStr (v : String) : Bool :=
  !(v.data.contains '\"') && !(v.data.contains ',')

/-- The C10 invariant: every key of the store is in scope. -/
def storeInScope (st : MonState) : Prop :=
  ∀ k, (lookupUnit st.units k).isSome = true → k ∈ st.filtered_units

/-- A concrete wall-clock instant, 1700000000 s after the epoch. -/
def tNginx : ℚ := ⟨1700000000, 1, by decide, by decide⟩

/-- The spec's end-to-end scenario snapshot. -/
def nginxSnapshot : UnitStats :=
  { name := "nginx.service", active_state := "active", sub_state := "running"
    load_state := "loaded", unit_file_state := "enabled", main_pid := 1234
    restart_count := 0, memory_current := 52428800, cpu_usage_nsec := 1234567890
    timestamp := tNginx }

/-- A healthy service unit's bus properties. -/
def propsNginx : UnitProps :=
  { activeState := some "active", subState := some "running"
    loadState := some "loaded", mainPID := some 1234, nRestarts := some 0
    memoryCurrent := some 52428800, cpuUsageNSec := some 1234567890
    unitFileState := some "enabled" }

def busNginx : Bus :=
  { getUnit := fun u => if u = "nginx.service" then some propsNginx else none
    now := tNginx }

/-- A bus on which every unit-handle lookup raises. -/
def busFailHandle : Bus :=
  { getUnit := fun _ => none, now := tNginx }

/-- Base-property failure: the `ActiveState` read raises. -/
def propsNoActive : UnitProps :=
  { propsNginx with activeState := none }

def busNoActive : Bus :=
  { getUnit := fun u => if u = "nginx.service" then some propsNoActive else none
    now := tNginx }

/-- Service-branch failure: `MainPID` raises while the resource
properties would be available. -/
def propsPidFail : UnitProps :=
  { activeState := some "active", subState := some "running"
    loadState := some "loaded", mainPID := none, nRestarts := some 3
    memoryCurrent := some 100, cpuUsageNSec := some 200
    unitFileState := some "enabled" }

def busPidFail : Bus :=
  { getUnit := fun u => if u = "a.service" then some propsPidFail else none
    now := tNginx }

/-- `NRestarts` raises after `MainPID` succeeded. -/
def propsRestartFail : UnitProps :=
  { propsPidFail with mainPID := some 77, nRestarts := none }

def busRestartFail : Bus :=
  { getUnit := fun u => if u = "b.service" then some propsRestartFail else none
    now := tNginx }

/-- A non-service unit whose bus object would nonetheless supply
service properties. -/
def busMount : Bus :=
  { getUnit := fun u => if u = "user.mount" then some propsNginx else none
    now := tNginx }

/-- The snapshot `get_unit_stats` produces for `user.mount` on
`busMount`: resources are fetched, the service fields stay zero. -/
def mountSnapshot : UnitStats :=
  { name := "user.mount", active_state := "active", sub_state := "running"
    load_state := "loaded", unit_file_state := "enabled", main_pid := 0
    restart_count := 0, memory_current := 52428800, cpu_usage_nsec := 1234567890
    timestamp := tNginx }

/-- The previously stored snapshot of `test.service` (inactive). -/
def oldTestStats : UnitStats :=
  { name := "test.service", active_state := "inactive", sub_state := "dead"
    load_state := "loaded", unit_file_state := "enabled", main_pid := 0
    restart_count := 0, memory_current := 0, cpu_usage_nsec := 0
    timestamp := tNginx }

/-- `test.service` is now active on the bus. -/
def propsTestActive : UnitProps :=
  { activeState := some "active", subState := some "running"
    loadState := some "loaded", mainPID := some 1234, nRestarts := some 1
    memoryCurrent := some 1024, cpuUsageNSec := some 1000
    unitFileState := some "enabled" }

def busTestActive : Bus :=
  { getUnit := fun u => if u = "test.service" then some propsTestActive else none
    now := tNginx }

/-- The snapshot `get_unit_stats` produces for `test.service` on
`busTestActive`. -/
def newTestStats : UnitStats :=
  { name := "test.service", active_state := "active", sub_state := "running"
    load_state := "loaded", unit_file_state := "enabled", main_pid := 1234
    restart_count := 1, memory_current := 1024, cpu_usage_nsec := 1000
    timestamp := tNginx }

/-- A monitor state tracking `test.service` with its old snapshot. -/
def stTest : MonState :=
  { units := [("test.service", oldTestStats)]
    filtered_units := ["test.service"] }

/-! ## Theorems -/

/-- C3: for every unit name and pattern pair, a non-empty exclude list
with a matching pattern forces rejection, whatever the include list
says — exclude always wins over include. -/
theorem exclude_wins_over_include (u : String) (I E : List String)
    (hE : E ≠ []) (hm : ∃ p ∈ E, fnmatch u p = true) :
    shouldMonitorUnit I E u = false := by
  obtain ⟨p, hp, hf⟩ := hm
  have hany : (E.any fun pattern => fnmatch u pattern) = true :=
    List.any_eq_true.mpr ⟨p, hp, hf⟩
  have hne : E.isEmpty = false := by
    cases E with
    | nil => exact absurd rfl hE
    | cons a t => rfl
  unfold shouldMonitorUnit
  split
  · rfl
  · simp [hany, hne]

/-- C3 witness: `*` include plus `*.mount` exclude rejects
`user.mount`. -/
theorem exclude_wins_over_include_witness :
    shouldMonitorUnit ["*"] ["*.mount"] "user.mount" = false :=
  exclude_wins_over_include "user.mount" ["*"] ["*.mount"] (by decide)
    ⟨"*.mount", by decide, by decide⟩

/-- C4 counterexample: the code has no empty-name guard — with both
pattern lists empty, `_should_monitor_unit` accepts the empty unit
name, while the claim demands rejection for every pattern pair. -/
theorem empty_name_counterexample :
    shouldMonitorUnit [] [] "" = true := by decide

/-- C4 amended: with both pattern lists empty every unit name is
accepted, the empty name included (there is no special empty-name
check); the empty name is rejected exactly when the ordinary pattern
checks reject it, e.g. whenever the include list is non-empty and no
include pattern matches the empty string. -/
theorem empty_name_no_special_case (u : String) (I E : List String)
    (hI : I ≠ []) (hno : ∀ p ∈ I, fnmatch "" p = false) :
    shouldMonitorUnit [] [] u = true ∧ shouldMonitorUnit I E "" = false := by
  refine ⟨by simp [shouldMonitorUnit], ?_⟩
  have hne : I.isEmpty = false := by
    cases I with
    | nil => exact absurd rfl hI
    | cons a t => rfl
  have hany : (I.any fun pattern => fnmatch "" pattern) = false := by
    rw [List.any_eq_false]
    intro p hp
    simp [hno p hp]
  unfold shouldMonitorUnit
  simp [hne, hany]

/-- C4 witness: `nginx.service` with no filters is accepted; the empty
name with include `*.service` is rejected. -/
theorem empty_name_no_special_case_witness :
    shouldMonitorUnit [] [] "nginx.service" = true ∧
    shouldMonitorUnit ["*.service"] [] "" = false :=
  empty_name_no_special_case "nginx.service" ["*.service"] []
    (by decide) (by decide)

set_option maxRecDepth 10000 in
/-- C1: for every snapshot whose string values contain no double-quote
or comma, the emitted payload is exactly one newline-terminated line
with the seven tags and four fields in the fixed source order and the
snapshot's wall-clock time as integer nanoseconds; in particular the
spec's end-to-end nginx scenario yields exactly the given line. -/
theorem telegraf_line_format (measurement username : String) (uid : Int)
    (stats : UnitStats)
    (hclean : cleanTagStr stats.name = true ∧
      cleanTagStr stats.active_state = true ∧
      cleanTagStr stats.sub_state = true ∧
      cleanTagStr stats.load_state = true ∧
      cleanTagStr stats.unit_file_state = true) :
    telegrafLine measurement username uid stats =
      measurement ++ ",unit=\"" ++ stats.name
        ++ "\",active_state=\"" ++ stats.active_state
        ++ "\",sub_state=\"" ++ stats.sub_state
        ++ "\",load_state=\"" ++ stats.load_state
        ++ "\",unit_file_state=\"" ++ stats.unit_file_state
        ++ "\",username=\"" ++ username
        ++ "\",uid=\"" ++ toString uid ++ "\" main_pid=" ++ toString stats.main_pid
        ++ "i,restart_count=" ++ toString stats.restart_count
        ++ "i,memory_current=" ++ toString stats.memory_current
        ++ "i,cpu_usage_nsec=" ++ toString stats.cpu_usage_nsec
        ++ "i " ++ toString (timestampNs stats.timestamp) ++ "\n" ∧
    telegrafLine "systemd_units" "testuser" 1000 nginxSnapshot =
      "systemd_units,unit=\"nginx.service\",active_state=\"active\",sub_state=\"running\",load_state=\"loaded\",unit_file_state=\"enabled\",username=\"testuser\",uid=\"1000\" main_pid=1234i,restart_count=0i,memory_current=52428800i,cpu_usage_nsec=1234567890i 1700000000000000000\n" := by
  constructor
  · apply String.ext
    simp [telegrafLine, buildTags, buildFields, joinSep, String.data_append]
  · decide

/-- C1 witness: the nginx scenario snapshot has clean tag values and
produces exactly the spec's line. -/
theorem telegraf_line_format_witness :
    telegrafLine "systemd_units" "testuser" 1000 nginxSnapshot =
      "systemd_units,unit=\"nginx.service\",active_state=\"active\",sub_state=\"running\",load_state=\"loaded\",unit_file_state=\"enabled\",username=\"testuser\",uid=\"1000\" main_pid=1234i,restart_count=0i,memory_current=52428800i,cpu_usage_nsec=1234567890i 1700000000000000000\n" :=
  (telegraf_line_format "systemd_units" "testuser" 1000 nginxSnapshot
    (by decide)).2

/-- C2: collection is all-or-nothing — a failed unit-handle resolution
or a failed mandatory base property (`active_state`, `sub_state`,
`load_state`) yields `none`, and any produced snapshot carries exactly
the successfully fetched base values (no partial snapshot exists). -/
theorem snapshot_all_or_nothing (bus : Bus) (u : String) :
    (bus.getUnit u = none → getUnitStats bus u = none) ∧
    (∀ props, bus.getUnit u = some props →
       props.activeState = none ∨ props.subState = none ∨ props.loadState = none →
       getUnitStats bus u = none) ∧
    (∀ s, getUnitStats bus u = some s →
       ∃ props, bus.getUnit u = some props ∧
         props.activeState = some s.active_state ∧
         props.subState = some s.sub_state ∧
         props.loadState = some s.load_state ∧
         s.name = u ∧ s.timestamp = bus.now) := by
  refine ⟨?_, ?_, ?_⟩
  · intro h
    simp [getUnitStats, h]
  · intro props hp hfail
    obtain ⟨oa, os, ol, omp, onr, omc, ocu, ouf⟩ := props
    rcases hfail with h | h | h
    · subst h; cases os <;> cases ol <;> simp [getUnitStats, hp]
    · subst h; cases oa <;> cases ol <;> simp [getUnitStats, hp]
    · subst h; cases oa <;> cases os <;> simp [getUnitStats, hp]
  · intro s hs
    unfold getUnitStats at hs
    cases hget : bus.getUnit u with
    | none => rw [hget] at hs; cases hs
    | some props =>
      obtain ⟨oa, os, ol, omp, onr, omc, ocu, ouf⟩ := props
      rw [hget] at hs
      cases oa with
      | none => cases os <;> cases ol <;> cases hs
      | some a =>
        cases os with
        | none => cases ol <;> cases hs
        | some b =>
          cases ol with
          | none => cases hs
          | some c =>
            obtain rfl := (Option.some.inj hs).symm
            exact ⟨_, rfl, rfl, rfl, rfl, rfl, rfl⟩

/-- C2 witness: a failed handle lookup and a failed `ActiveState` read
both produce no snapshot at all. -/
theorem snapshot_all_or_nothing_witness :
    getUnitStats busFailHandle "x.service" = none ∧
    getUnitStats busNoActive "nginx.service" = none :=
  ⟨(snapshot_all_or_nothing busFailHandle "x.service").1 rfl,
   (snapshot_all_or_nothing busNoActive "nginx.service").2.1 propsNoActive
     (by decide) (Or.inl (by decide))⟩

/-- C7: a unit whose name does not end in `.service` always snapshots
with `main_pid = 0` and `restart_count = 0` whatever the bus supplies;
on a `.service` unit a failed `MainPID` read degrades both values to 0
and a failed `NRestarts` read degrades `restart_count` to 0 (keeping
the already-fetched `main_pid`), in both cases without aborting
snapshot creation. -/
theorem non_service_zero_pid (bus : Bus) (u : String) :
    (strEndsWith u ".service" = false →
       ∀ s, getUnitStats bus u = some s → s.main_pid = 0 ∧ s.restart_count = 0) ∧
    (∀ props, bus.getUnit u = some props → strEndsWith u ".service" = true →
       props.mainPID = none →
       ∀ a b c, props.activeState = some a → props.subState = some b →
         props.loadState = some c →
       ∃ s, getUnitStats bus u = some s ∧ s.main_pid = 0 ∧ s.restart_count = 0) ∧
    (∀ props mp, bus.getUnit u = some props → strEndsWith u ".service" = true →
       props.mainPID = some mp → props.nRestarts = none →
       ∀ a b c, props.activeState = some a → props.subState = some b →
         props.loadState = some c →
       ∃ s, getUnitStats bus u = some s ∧ s.main_pid = mp ∧
         s.restart_count = 0) := by
  refine ⟨?_, ?_, ?_⟩
  · intro hns s hs
    unfold getUnitStats at hs
    cases hget : bus.getUnit u with
    | none => rw [hget] at hs; cases hs
    | some props =>
      obtain ⟨oa, os, ol, omp, onr, omc, ocu, ouf⟩ := props
      rw [hget] at hs
      cases oa with
      | none => cases os <;> cases ol <;> cases hs
      | some a =>
        cases os with
        | none => cases ol <;> cases hs
        | some b =>
          cases ol with
          | none => cases hs
          | some c =>
            obtain rfl := (Option.some.inj hs).symm
            rw [hns]
            simp [extendedProps]
  · intro props hp hsvc hmp a b c ha hb hc
    obtain ⟨oa, os, ol, omp, onr, omc, ocu, ouf⟩ := props
    subst ha hb hc hmp
    simp only [getUnitStats, hp]
    exact ⟨_, rfl, by rw [hsvc]; simp [extendedProps],
           by rw [hsvc]; simp [extendedProps]⟩
  · intro props mp hp hsvc hmp hnr a b c ha hb hc
    obtain ⟨oa, os, ol, omp, onr, omc, ocu, ouf⟩ := props
    subst ha hb hc hmp hnr
    simp only [getUnitStats, hp]
    exact ⟨_, rfl, by rw [hsvc]; simp [extendedProps],
           by rw [hsvc]; simp [extendedProps]⟩

/-- C7 witness: `user.mount` snapshots with zero service fields even
though the bus supplies `MainPID = 1234`; a `.service` unit with a
failed `MainPID` read still snapshots, with both fields zero. -/
theorem non_service_zero_pid_witness :
    (getUnitStats busMount "user.mount" = some mountSnapshot ∧
      mountSnapshot.main_pid = 0 ∧ mountSnapshot.restart_count = 0) ∧
    (∃ s, getUnitStats busPidFail "a.service" = some s ∧
      s.main_pid = 0 ∧ s.restart_count = 0) :=
  ⟨⟨by decide,
    (non_service_zero_pid busMount "user.mount").1 (by decide)
      mountSnapshot (by decide)⟩,
   (non_service_zero_pid busPidFail "a.service").2.1 propsPidFail
     (by decide) (by decide) (by decide) "active" "running" "loaded"
     (by decide) (by decide) (by decide)⟩

/-- C5 counterexample: on `a.service` the `MainPID` read fails while
`MemoryCurrent = 100`, `CPUUsageNSec = 200` and
`UnitFileState = "enabled"` are available, yet the snapshot records
`(0, 0, "unknown")` — the service-branch failure did prevent the other
extended properties from being fetched. -/
theorem extended_props_counterexample :
    busPidFail.getUnit "a.service" = some propsPidFail ∧
    propsPidFail.mainPID = none ∧
    propsPidFail.memoryCurrent = some 100 ∧
    propsPidFail.cpuUsageNSec = some 200 ∧
    propsPidFail.unitFileState = some "enabled" ∧
    (getUnitStats busPidFail "a.service").map
      (fun s => (s.memory_current, s.cpu_usage_nsec, s.unit_file_state)) =
      some (0, 0, "unknown") := by decide

/-- C5 amended: `memory_current`, `cpu_usage_nsec` and
`unit_file_state` are fetched independently of each other (each is its
own property's value or its own default) whenever the service-specific
branch did not raise — i.e. on non-service units, and on service units
whose `MainPID`/`NRestarts` reads succeed; but a failure fetching
`main_pid` or `restart_count` on a `.service` unit skips the remaining
extended fetches, leaving all of them at their defaults. The snapshot
is still produced in every case. -/
theorem extended_props_resilient (bus : Bus) (u : String) (props : UnitProps)
    (hget : bus.getUnit u = some props) (a b c : String)
    (ha : props.activeState = some a) (hb : props.subState = some b)
    (hc : props.loadState = some c) :
    ∃ s, getUnitStats bus u = some s ∧
      ((strEndsWith u ".service" = false ∨
        (∃ mp nr, props.mainPID = some mp ∧ props.nRestarts = some nr)) →
         s.memory_current = props.memoryCurrent.getD 0 ∧
         s.cpu_usage_nsec = props.cpuUsageNSec.getD 0 ∧
         s.unit_file_state = props.unitFileState.getD "unknown") ∧
      (strEndsWith u ".service" = true → props.mainPID = none →
         s.main_pid = 0 ∧ s.restart_count = 0 ∧ s.memory_current = 0 ∧
         s.cpu_usage_nsec = 0 ∧ s.unit_file_state = "unknown") ∧
      (∀ mp, strEndsWith u ".service" = true → props.mainPID = some mp →
         props.nRestarts = none →
         s.main_pid = mp ∧ s.restart_count = 0 ∧ s.memory_current = 0 ∧
         s.cpu_usage_nsec = 0 ∧ s.unit_file_state = "unknown") := by
  obtain ⟨oa, os, ol, omp, onr, omc, ocu, ouf⟩ := props
  subst ha hb hc
  simp only [getUnitStats, hget]
  refine ⟨_, rfl, ?_, ?_, ?_⟩
  · rintro (hns | ⟨mp, nr, hmp, hnr⟩)
    · rw [hns]; simp [extendedProps]
    · subst hmp hnr
      cases hsvc : strEndsWith u ".service" <;> simp [extendedProps, hsvc]
  · intro hsvc hmp
    subst hmp
    rw [hsvc]
    simp [extendedProps]
  · intro mp hsvc hmp hnr
    subst hmp hnr
    rw [hsvc]
    simp [extendedProps]

/-- C5 witness: on `busNginx` every read succeeds, so the snapshot
echoes the available resource values; on `busRestartFail` the
`NRestarts` read raises after `MainPID = 77` was fetched, so the
snapshot keeps `main_pid = 77` and leaves every remaining extended
value at its default even though the resources were available. -/
theorem extended_props_resilient_witness :
    (∃ s, getUnitStats busNginx "nginx.service" = some s ∧
      s.memory_current = 52428800 ∧ s.cpu_usage_nsec = 1234567890 ∧
      s.unit_file_state = "enabled") ∧
    (∃ t, getUnitStats busRestartFail "b.service" = some t ∧
      t.main_pid = 77 ∧ t.restart_count = 0 ∧ t.memory_current = 0 ∧
      t.cpu_usage_nsec = 0 ∧ t.unit_file_state = "unknown") := by
  constructor
  · obtain ⟨s, hs, hind, _, _⟩ :=
      extended_props_resilient busNginx "nginx.service" propsNginx
        (by decide) "active" "running" "loaded" (by decide) (by decide)
        (by decide)
    obtain ⟨h1, h2, h3⟩ :=
      hind (Or.inr ⟨1234, 0, by decide, by decide⟩)
    exact ⟨s, hs, by simpa [propsNginx] using h1,
           by simpa [propsNginx] using h2, by simpa [propsNginx] using h3⟩
  · obtain ⟨t, ht, _, _, hskip⟩ :=
      extended_props_resilient busRestartFail "b.service" propsRestartFail
        (by decide) "active" "running" "loaded" (by decide) (by decide)
        (by decide)
    obtain ⟨h1, h2, h3, h4, h5⟩ :=
      hskip 77 (by decide) (by decide) (by decide)
    exact ⟨t, ht, h1, h2, h3, h4, h5⟩

/-- C8: `send_to_telegraf` never raises to its caller; the socket is
closed exactly once and last on every path; a connect or send failure
yields exactly one warning (none on success); exactly one write is
attempted when the connection succeeds and none otherwise (the metric
is dropped, never retried). -/
theorem send_never_raises (b : SocketBehavior) (path measurement username : String)
    (uid : Int) (stats : UnitStats) :
    (sendToTelegraf b path measurement username uid stats).1 = Except.ok () ∧
    ((sendToTelegraf b path measurement username uid stats).2.countP
      fun e => e.isClose) = 1 ∧
    (sendToTelegraf b path measurement username uid stats).2.getLast? =
      some SockEv.closeSock ∧
    ((sendToTelegraf b path measurement username uid stats).2.countP
      fun e => e.isWarn) = (if b.connectOk && b.sendOk then 0 else 1) ∧
    ((sendToTelegraf b path measurement username uid stats).2.countP
      fun e => e.isSend) = (if b.connectOk then 1 else 0) := by
  obtain ⟨cok, sok⟩ := b
  cases cok <;> cases sok <;>
    simp [sendToTelegraf, SockEv.isClose, SockEv.isWarn, SockEv.isSend]

/-- C6 counterexample: on a tracked unit whose `active_state` changed,
the trace places the store overwrite first — no transition log event
occurs before the store update, contradicting the claimed ordering
(the line itself is emitted, once, with the claimed content). -/
theorem transition_log_counterexample :
    (collectAndSendUnitStats busTestActive stTest "test.service").2 =
      [LogEv.storeUpdate "test.service",
       LogEv.infoLog "Unit test.service state changed: inactive -> active",
       LogEv.emitMetric newTestStats] ∧
    occursBefore LogEv.isInfo LogEv.isStoreUpdate
      (collectAndSendUnitStats busTestActive stTest "test.service").2 = false ∧
    occursBefore LogEv.isStoreUpdate LogEv.isInfo
      (collectAndSendUnitStats busTestActive stTest "test.service").2 = true := by
  decide

/-- C6 amended: on a state change the old snapshot is read before the
overwrite, and exactly one transition log line of the form
`Unit <name> state changed: <old> -> <new>` is produced — after the
store entry is overwritten, then followed by the emission; no
transition line is produced when the state is unchanged or the unit has
no stored snapshot. -/
theorem transition_log_after_update (bus : Bus) (st : MonState) (u : String) :
    (∀ o s, lookupUnit st.units u = some o → getUnitStats bus u = some s →
       (o.active_state ≠ s.active_state →
          (collectAndSendUnitStats bus st u).2 =
            [LogEv.storeUpdate u,
             LogEv.infoLog (stateChangeMsg u o.active_state s.active_state),
             LogEv.emitMetric s] ∧
          ((collectAndSendUnitStats bus st u).2.countP fun e => e.isInfo) = 1) ∧
       (o.active_state = s.active_state →
          ((collectAndSendUnitStats bus st u).2.countP fun e => e.isInfo) = 0)) ∧
    (lookupUnit st.units u = none → ∀ s, getUnitStats bus u = some s →
       ((collectAndSendUnitStats bus st u).2.countP fun e => e.isInfo) = 0) := by
  constructor
  · intro o s ho hs
    constructor
    · intro hne
      simp [collectAndSendUnitStats, hs, ho, hne, LogEv.isInfo]
    · intro heq
      simp [collectAndSendUnitStats, hs, ho, heq, LogEv.isInfo]
  · intro ho s hs
    simp [collectAndSendUnitStats, hs, ho, LogEv.isInfo]

/-- C6 witness: the tracked `test.service` transitioning inactive →
active produces exactly the store-update, one transition line, and the
emission, in that order. -/
theorem transition_log_after_update_witness :
    (collectAndSendUnitStats busTestActive stTest "test.service").2 =
      [LogEv.storeUpdate "test.service",
       LogEv.infoLog (stateChangeMsg "test.service" "inactive" "active"),
       LogEv.emitMetric newTestStats] :=
  (((transition_log_after_update busTestActive stTest "test.service").1
      oldTestStats newTestStats (by decide) (by decide)).1 (by decide)).1

/-! ### Supporting lemmas for the reconciler claims -/


theorem lookupUnit_insertUnit (m : List (String × UnitStats)) (u k : String)
    (v : UnitStats) :
    lookupUnit (insertUnit m u v) k =
      if u = k then some v else lookupUnit m k := by
  induction m with
  | nil => simp [insertUnit, lookupUnit]
  | cons p rest ih =>
    obtain ⟨k', v'⟩ := p
    by_cases hk : k' = u
    · subst hk
      by_cases huk : k' = k
      · subst huk
        simp [insertUnit, lookupUnit]
      · simp [insertUnit, lookupUnit, huk]
    · by_cases hkk : k' = k
      · subst hkk
        have : u ≠ k' := fun h => hk h.symm
        simp [insertUnit, lookupUnit, hk, this]
      · simp [insertUnit, lookupUnit, hk, hkk, ih]

theorem lookupUnit_removeUnit (m : List (String × UnitStats)) (u k : String) :
    lookupUnit (removeUnit m u) k =
      if k = u then none else lookupUnit m k := by
  induction m with
  | nil => simp [removeUnit, lookupUnit]
  | cons p rest ih =>
    obtain ⟨k', v'⟩ := p
    by_cases hku : k' = u
    · subst hku
      have h1 : removeUnit ((k', v') :: rest) k' = removeUnit rest k' := by
        simp [removeUnit, List.filter_cons]
      rw [h1, ih]
      by_cases hkk : k = k'
      · simp [hkk]
      · have hkk' : k' ≠ k := fun h => hkk h.symm
        simp [hkk, lookupUnit, hkk']
    · have h1 : removeUnit ((k', v') :: rest) u = (k', v') :: removeUnit rest u := by
        simp [removeUnit, List.filter_cons, hku]
      rw [h1]
      by_cases hkk : k' = k
      · subst hkk
        simp [lookupUnit, hku]
      · simp [lookupUnit, hkk, ih]

theorem getUnitStats_name (bus : Bus) (u : String) (s : UnitStats)
    (hs : getUnitStats bus u = some s) : s.name = u := by
  unfold getUnitStats at hs
  cases hget : bus.getUnit u with
  | none => rw [hget] at hs; cases hs
  | some props =>
    obtain ⟨oa, os, ol, omp, onr, omc, ocu, ouf⟩ := props
    rw [hget] at hs
    cases oa with
    | none => cases os <;> cases ol <;> cases hs
    | some a =>
      cases os with
      | none => cases ol <;> cases hs
      | some b =>
        cases ol with
        | none => cases hs
        | some c =>
          obtain rfl := (Option.some.inj hs).symm
          rfl

theorem collectAndSend_filtered (bus : Bus) (st : MonState) (u : String) :
    (collectAndSendUnitStats bus st u).1.filtered_units = st.filtered_units := by
  cases h : getUnitStats bus u <;> simp [collectAndSendUnitStats, h]

theorem collectAndSend_fail (bus : Bus) (st : MonState) (u : String)
    (h : getUnitStats bus u = none) :
    collectAndSendUnitStats bus st u = (st, []) := by
  simp [collectAndSendUnitStats, h]

theorem collectAndSend_lookup_other (bus : Bus) (st : MonState) (u v : String)
    (hvu : v ≠ u) :
    lookupUnit (collectAndSendUnitStats bus st v).1.units u =
      lookupUnit st.units u := by
  cases h : getUnitStats bus v <;>
    simp [collectAndSendUnitStats, h, lookupUnit_insertUnit, hvu]

theorem collectAndSend_emit_name (bus : Bus) (st : MonState) (u : String)
    (s : UnitStats)
    (hmem : LogEv.emitMetric s ∈ (collectAndSendUnitStats bus st u).2) :
    s.name = u := by
  cases hg : getUnitStats bus u with
  | none => simp [collectAndSendUnitStats, hg] at hmem
  | some t =>
    have hname : t.name = u := getUnitStats_name bus u t hg
    cases ho : lookupUnit st.units u with
    | none =>
      simp [collectAndSendUnitStats, hg, ho] at hmem
      exact hmem ▸ hname
    | some o =>
      by_cases hne : o.active_state ≠ t.active_state
      · simp [collectAndSendUnitStats, hg, ho, hne] at hmem
        exact hmem ▸ hname
      · simp [collectAndSendUnitStats, hg, ho, hne] at hmem
        exact hmem ▸ hname

theorem pollUnitsAux_filtered (bus : Bus) (L : List String) (st : MonState) :
    (pollUnitsAux bus L st).1.filtered_units = st.filtered_units := by
  induction L generalizing st with
  | nil => rfl
  | cons u rest ih =>
    simp [pollUnitsAux, ih, collectAndSend_filtered]

theorem pollUnitsAux_emit_name (bus : Bus) (L : List String) (st : MonState)
    (s : UnitStats)
    (hmem : LogEv.emitMetric s ∈ (pollUnitsAux bus L st).2) : s.name ∈ L := by
  induction L generalizing st with
  | nil => simp [pollUnitsAux] at hmem
  | cons u rest ih =>
    simp only [pollUnitsAux, List.mem_append] at hmem
    rcases hmem with h | h
    · exact (collectAndSend_emit_name bus st u s h) ▸ List.mem_cons_self u rest
    · exact List.mem_cons_of_mem u (ih _ h)

theorem pollUnitsAux_lookup_not_mem (bus : Bus) (L : List String)
    (st : MonState) (u : String) (hu : u ∉ L) :
    lookupUnit (pollUnitsAux bus L st).1.units u = lookupUnit st.units u := by
  induction L generalizing st with
  | nil => rfl
  | cons v rest ih =>
    have hvu : v ≠ u := fun h => hu (h ▸ List.mem_cons_self v rest)
    have hurest : u ∉ rest := fun h => hu (List.mem_cons_of_mem v h)
    simp only [pollUnitsAux]
    rw [ih _ hurest, collectAndSend_lookup_other bus st u v hvu]


/-- C9: a lifecycle-removed notification for a tracked unit removes it
from scope and from the store with no emission, and a subsequent poll
tick neither emits for it nor resurrects its store entry; a
lifecycle-new notification for a unit failing the filter changes
nothing and produces no events. -/
theorem lifecycle_scope (bus : Bus) (st : MonState) (u : String) (I E : List String) :
    (u ∈ st.filtered_units →
       u ∉ (onUnitRemoved st u).1.filtered_units ∧
       lookupUnit (onUnitRemoved st u).1.units u = none ∧
       ((onUnitRemoved st u).2.countP fun e => e.isEmit) = 0 ∧
       (∀ s, LogEv.emitMetric s ∈ (pollUnits bus (onUnitRemoved st u).1).2 →
          s.name ≠ u) ∧
       lookupUnit (pollUnits bus (onUnitRemoved st u).1).1.units u = none) ∧
    (shouldMonitorUnit I E u = false → onUnitNew bus I E st u = (st, [])) := by
  constructor
  · intro hmem
    have hrem : (onUnitRemoved st u).1 =
        { units := removeUnit st.units u
          filtered_units := st.filtered_units.filter fun v => v ≠ u } := by
      simp [onUnitRemoved, hmem]
    have hnotmem : u ∉ (onUnitRemoved st u).1.filtered_units := by
      rw [hrem]
      simp [List.mem_filter]
    have hlook : lookupUnit (onUnitRemoved st u).1.units u = none := by
      rw [hrem]
      simp [lookupUnit_removeUnit]
    refine ⟨hnotmem, hlook, ?_, ?_, ?_⟩
    · simp [onUnitRemoved, hmem, LogEv.isEmit]
    · intro s hs hname
      have : s.name ∈ (onUnitRemoved st u).1.filtered_units :=
        pollUnitsAux_emit_name bus _ _ s hs
      rw [hname] at this
      exact hnotmem this
    · unfold pollUnits
      rw [pollUnitsAux_lookup_not_mem bus _ _ u hnotmem]
      exact hlook
  · intro h
    simp [onUnitNew, h]

theorem addScope_mem_self (s : List String) (u : String) : u ∈ addScope s u := by
  by_cases h : u ∈ s <;> simp [addScope, h]

theorem addScope_mem_of_mem (s : List String) (u k : String) (h : k ∈ s) :
    k ∈ addScope s u := by
  by_cases hu : u ∈ s <;> simp [addScope, hu, h]

theorem collectAndSend_inv (bus : Bus) (st : MonState) (u : String)
    (hinv : storeInScope st) (hu : u ∈ st.filtered_units) :
    storeInScope (collectAndSendUnitStats bus st u).1 := by
  intro k hk
  rw [collectAndSend_filtered]
  by_cases hku : u = k
  · exact hku ▸ hu
  · rw [collectAndSend_lookup_other bus st k u (fun h => hku h)] at hk
    exact hinv k hk

theorem getAllUnitsAux_units (I E : List String) (L : List String)
    (st : MonState) : (getAllUnitsAux I E L st).1.units = st.units := by
  induction L generalizing st with
  | nil => rfl
  | cons n rest ih =>
    by_cases h : shouldMonitorUnit I E n = true
    · simp [getAllUnitsAux, h, ih]
    · simp only [Bool.not_eq_true] at h
      simp [getAllUnitsAux, h, ih]

theorem getAllUnitsAux_scope_mono (I E : List String) (L : List String)
    (st : MonState) (k : String) (hk : k ∈ st.filtered_units) :
    k ∈ (getAllUnitsAux I E L st).1.filtered_units := by
  induction L generalizing st with
  | nil => exact hk
  | cons n rest ih =>
    by_cases h : shouldMonitorUnit I E n = true
    · simp only [getAllUnitsAux, h, if_true]
      exact ih _ (addScope_mem_of_mem _ _ _ hk)
    · simp only [Bool.not_eq_true] at h
      simp only [getAllUnitsAux, h, Bool.false_eq_true, if_false]
      exact ih _ hk

theorem pollUnitsAux_inv (bus : Bus) (L : List String) (st : MonState)
    (hL : ∀ v ∈ L, v ∈ st.filtered_units) (hinv : storeInScope st) :
    storeInScope (pollUnitsAux bus L st).1 := by
  induction L generalizing st with
  | nil => exact hinv
  | cons v rest ih =>
    simp only [pollUnitsAux]
    have hv : v ∈ st.filtered_units := hL v (List.mem_cons_self v rest)
    have hinv' : storeInScope (collectAndSendUnitStats bus st v).1 :=
      collectAndSend_inv bus st v hinv hv
    refine ih _ ?_ hinv'
    intro w hw
    rw [collectAndSend_filtered]
    exact hL w (List.mem_cons_of_mem v hw)

/-- C10: every reconciler operation preserves the invariant that each
store key is in scope (stored values are complete snapshots by
construction of `getUnitStats`); and a failed collection leaves the
state completely unchanged and emits nothing. `collect_and_send` is
invoked only on in-scope units, reflected in the membership
hypothesis of its conjunct. -/
theorem store_scope_invariant (bus : Bus) (st : MonState) (u : String) (I E : List String)
    (lu : Option (List String)) :
    (storeInScope st → storeInScope (getAllUnits lu I E st).1) ∧
    (storeInScope st → storeInScope (onUnitNew bus I E st u).1) ∧
    (storeInScope st → storeInScope (onUnitRemoved st u).1) ∧
    (storeInScope st → storeInScope (pollUnits bus st).1) ∧
    (storeInScope st → u ∈ st.filtered_units →
       storeInScope (collectAndSendUnitStats bus st u).1) ∧
    (getUnitStats bus u = none → collectAndSendUnitStats bus st u = (st, [])) := by
  refine ⟨?_, ?_, ?_, ?_, ?_, ?_⟩
  · intro hinv
    cases lu with
    | none => exact hinv
    | some names =>
      intro k hk
      simp only [getAllUnits] at hk ⊢
      rw [getAllUnitsAux_units] at hk
      exact getAllUnitsAux_scope_mono I E names st k (hinv k hk)
  · intro hinv
    by_cases h : shouldMonitorUnit I E u = true
    · simp only [onUnitNew, h, if_true]
      refine collectAndSend_inv bus _ u ?_ (addScope_mem_self _ u)
      intro k hk
      exact addScope_mem_of_mem _ _ _ (hinv k hk)
    · simp only [Bool.not_eq_true] at h
      simp only [onUnitNew, h, Bool.false_eq_true, if_false]
      exact hinv
  · intro hinv
    by_cases h : u ∈ st.filtered_units
    · intro k hk
      simp only [onUnitRemoved, h, if_pos] at hk ⊢
      rw [lookupUnit_removeUnit] at hk
      by_cases hku : k = u
      · rw [if_pos hku] at hk
        cases hk
      · rw [if_neg hku] at hk
        simp [List.mem_filter, hku]
        exact hinv k hk
    · simp only [onUnitRemoved, h, if_neg, if_false]
      exact hinv
  · intro hinv
    exact pollUnitsAux_inv bus st.filtered_units st (fun v hv => hv) hinv
  · intro hinv hu
    exact collectAndSend_inv bus st u hinv hu
  · intro h
    exact collectAndSend_fail bus st u h

/-- C9 witness: removing tracked `test.service` empties scope and
store, the next poll leaves its entry absent, and a filtered-out
`user.mount` lifecycle-new is a no-op. -/
theorem lifecycle_scope_witness :
    "test.service" ∉ (onUnitRemoved stTest "test.service").1.filtered_units ∧
    lookupUnit
      (pollUnits busTestActive (onUnitRemoved stTest "test.service").1).1.units
      "test.service" = none ∧
    onUnitNew busTestActive ["*.service"] [] stTest "user.mount" = (stTest, []) :=
  ⟨((lifecycle_scope busTestActive stTest "test.service" ["*.service"] []).1
      (by decide)).1,
   ((lifecycle_scope busTestActive stTest "test.service" ["*.service"] []).1
      (by decide)).2.2.2.2,
   (lifecycle_scope busTestActive stTest "user.mount" ["*.service"] []).2
      (by decide)⟩

/-- C10 witness: the invariant survives removing `test.service` from
`stTest`, and a failing collection for an untracked unit returns the
state unchanged with no events. -/
theorem store_scope_invariant_witness :
    storeInScope (onUnitRemoved stTest "test.service").1 ∧
    collectAndSendUnitStats busTestActive stTest "other.service" =
      (stTest, []) := by
  have hinv : storeInScope stTest := by
    intro k hk
    simp only [stTest, lookupUnit] at hk
    by_cases h : "test.service" = k
    · subst h
      simp [stTest]
    · rw [if_neg h] at hk
      simp [lookupUnit] at hk
  exact ⟨(store_scope_invariant busTestActive stTest "test.service" [] []
            none).2.2.1 hinv,
         (store_scope_invariant busTestActive stTest "other.service" [] []
            none).2.2.2.2.2 (by decide)⟩

end SystemdMonitor
